import Mathlib

/-!
Verification of the ig-scraper collection pipeline.

This file gives a shallow embedding of the pipeline machinery of the
ig-scraper repository (batch partitioning, resume filtering, record
normalization, the batch-collector loop, the result stores, the
retrying HTTP helper `api_get`, the export parser, and the follower
checkpoint writer), translated from the Python sources:

  * `apify_to_report.py`  (cmd_scrape, load_already_scraped, convert helpers)
  * `apify_scrape.py`     (wait_for_run, cmd_comments batching, cmd_analyze
                           follower normalization)
  * `export_scraper.py`   (api_get, parse_relationship_entries)
  * `ig_api_scraper.py`   (api_get, cmd_followers store)
  * `scrape_followers.py` (cmd_followers checkpoint saves)

Python `dict`s are modelled as association lists, JSON values as the
`JVal` type below, Python truthiness as `JVal.truthy`, raising code as
`Except`, and `sys.exit(1)` as a distinguished outcome constructor.
-/

/-! ## Batch partitioning

`apify_to_report.py` lines 100-105 and `apify_scrape.py` lines 166-173 both
partition a list with the idiom

    for i in range(0, len(remaining), batch_size):
        batch = remaining[i : i + batch_size]

`batches bs l` produces the same list of slices.  (Python's `range` raises
`ValueError` for `batch_size = 0`; the `bs = 0` branch below is unreachable
for the positive batch sizes the claims quantify over.) -/

def batches {α : Type} (bs : Nat) (l : List α) : List (List α) :=
  if bs = 0 then []
  else if l.isEmpty then []
  else l.take bs :: batches bs (l.drop bs)
termination_by l.length
decreasing_by
  rename_i h1 h2
  have hl : 0 < l.length := by
    cases l with
    | nil => simp at h2
    | cons a t => simp
  have hbs : 0 < bs := Nat.pos_of_ne_zero h1
  simp only [List.length_drop]
  omega

/-! ## Resume filtering

`apify_to_report.py` line 87: `remaining = [u for u in all_usernames if u
not in already_scraped]`; the same comprehension appears in
`ig_api_scraper.py` line 250, `export_scraper.py` line 375 and
`scrape_followers.py` line 190. -/

def remainingUnits (work : List String) (done : List String) : List String :=
  work.filter (fun u => !(done.contains u))

/-- `apify_to_report.py` lines 63-72: the already-done set is the set of
`username` fields of the persisted raw records, keeping only truthy
(non-empty) usernames.  A store is modelled by the list of the `username`
fields of its records. -/
def load_already_scraped (store : List String) : List String :=
  store.filter (fun u => u != "")

/-! ## Python string primitives

Structural (character-list) implementations of the Python string methods
the sources use, so that every definition in this file evaluates inside
the kernel. -/

/-- The whitespace recognized by Python's `str.strip()` (ASCII range). -/
def pyWs (c : Char) : Bool :=
  c = ' ' || c = '\t' || c = '\n' || c = '\r' || c = '\x0b' || c = '\x0c'

/-- Python `s.strip()`. -/
def pyStrip (s : String) : String :=
  String.mk (((s.data.dropWhile pyWs).reverse.dropWhile pyWs).reverse)

/-- One step of Python `s.replace("\n", " | ")` on a character list (the
pattern is a single character, so a character-wise expansion is exact). -/
def replNl : List Char → List Char
  | [] => []
  | c :: cs => if c = '\n' then ' ' :: '|' :: ' ' :: replNl cs else c :: replNl cs

/-- Python `s.replace("\n", " | ")`. -/
def pyReplaceNl (s : String) : String := String.mk (replNl s.data)

/-- Does `pat` begin the list `cs`? -/
def beginsWith : List Char → List Char → Bool
  | [], _ => true
  | _ :: _, [] => false
  | p :: ps, c :: cs => p = c && beginsWith ps cs

/-- Python `pat in s` on character lists. -/
def subContains (cs pat : List Char) : Bool :=
  match cs with
  | [] => pat.isEmpty
  | _ :: rest => beginsWith pat cs || subContains rest pat

/-- Python `pat in s`. -/
def strContains (s pat : String) : Bool := subContains s.data pat.data

/-- Python `s.split(sep)` for a one-character separator. -/
def splitChar (sep : Char) : List Char → List (List Char)
  | [] => [[]]
  | c :: cs =>
    match splitChar sep cs with
    | [] => [[]]
    | g :: gs => if c = sep then [] :: g :: gs else (c :: g) :: gs

/-- Python `s.rstrip("/")`. -/
def rstripSlash (cs : List Char) : List Char :=
  (cs.reverse.dropWhile (fun c => c = '/')).reverse

/-! ## JSON values and Python truthiness -/

/-- A JSON-ish value as the Python code sees it (`None`, booleans, numbers,
strings).  Containers are not needed by the normalizer that is modelled
here. -/
inductive JVal where
  | null : JVal
  | bool (b : Bool) : JVal
  | num (n : Int) : JVal
  | str (s : String) : JVal
deriving DecidableEq, Repr, Inhabited

/-- Python truthiness of a value: `None`, `False`, `0` and `""` are falsy. -/
def JVal.truthy : JVal → Bool
  | JVal.null => false
  | JVal.bool b => b
  | JVal.num n => n != 0
  | JVal.str s => s != ""

/-- Python `a or b`: `a` if `a` is truthy, else `b`. -/
def pyOr (a b : JVal) : JVal := if a.truthy then a else b

/-- A raw upstream record: a JSON object, i.e. a field-name/value map. -/
abbrev RawRecord : Type := List (String × JVal)

/-- Python `d.get(k)` (and `d.get(k, None)`): the stored value, or `None`
when the key is absent. -/
def getField (r : RawRecord) (k : String) : JVal :=
  match r.find? (fun p => p.1 = k) with
  | some p => p.2
  | none => JVal.null

/-- The first truthy value among the fields named in `keys`, else the
default — the spec's "ordered list of acceptable source field names, first
non-empty/non-null match wins". -/
def firstTruthy (r : RawRecord) : List String → JVal → JVal
  | [], dflt => dflt
  | k :: ks, dflt =>
    if (getField r k).truthy then getField r k else firstTruthy r ks dflt

/-! ## The follower normalizer (`apify_scrape.py` cmd_analyze, lines 229-287) -/

/-- The canonical record produced per follower by `cmd_analyze`.  Field
values are kept as the `JVal`s Python would store, because the code performs
no type coercion. -/
structure FollowerNorm where
  handle : JVal
  ig_user_id : JVal
  full_name : JVal
  follower_count : JVal
  following_count : JVal
  is_verified : JVal
  is_private : JVal
  bio : JVal
  post_count : JVal
  external_url : JVal
  profile_pic_url : JVal
deriving DecidableEq, Repr, Inhabited

/-- Python `v.replace("\n", " | ")`: defined on strings; on any other
(truthy) value the attribute lookup raises `AttributeError`. -/
def bioTransform (v : JVal) : Except Unit JVal :=
  match v with
  | JVal.str s => Except.ok (JVal.str (pyReplaceNl s))
  | _ => Except.error ()

/-- `apify_scrape.py` lines 230-287: the per-follower normalization
dictionary, field by field.  The `bio` chain ends in `.replace("\n", " | ")`,
which raises when the chain produced a truthy non-string. -/
def normalizeFollower (r : RawRecord) : Except Unit FollowerNorm := do
  let bioVal ← bioTransform
    (pyOr (getField r "biography") (pyOr (getField r "bio") (JVal.str "")))
  Except.ok
    { handle := pyOr (getField r "username")
        (pyOr (getField r "userName") (pyOr (getField r "handle") (JVal.str "")))
      ig_user_id := pyOr (getField r "id")
        (pyOr (getField r "pk")
          (pyOr (getField r "userId") (pyOr (getField r "iguid") (JVal.str ""))))
      full_name := pyOr (getField r "fullName")
        (pyOr (getField r "full_name") (JVal.str ""))
      follower_count := pyOr (getField r "followerCount")
        (pyOr (getField r "followers")
          (pyOr (getField r "follower_count") (JVal.num 0)))
      following_count := pyOr (getField r "followingCount")
        (pyOr (getField r "following")
          (pyOr (getField r "following_count") (JVal.num 0)))
      is_verified := pyOr (getField r "isVerified")
        (pyOr (getField r "is_verified") (JVal.bool false))
      is_private := pyOr (getField r "isPrivate")
        (pyOr (getField r "is_private") (JVal.bool false))
      bio := bioVal
      post_count := pyOr (getField r "mediaCount")
        (pyOr (getField r "postsCount")
          (pyOr (getField r "post_count") (JVal.num 0)))
      external_url := pyOr (getField r "externalUrl")
        (pyOr (getField r "external_url") (JVal.str ""))
      profile_pic_url := pyOr (getField r "profilePicUrl")
        (pyOr (getField r "profile_pic_url") (JVal.str "")) }

/-- `normalizeFollower` succeeded (Python did not raise). -/
def normOk (r : RawRecord) : Bool :=
  match normalizeFollower r with
  | Except.ok _ => true
  | Except.error _ => false

/-- The normalized record when `normalizeFollower` succeeds. -/
def normGet (r : RawRecord) : FollowerNorm :=
  match normalizeFollower r with
  | Except.ok f => f
  | Except.error _ => default

/-- A value that is safe on the bio path: a string, or falsy (falsy values
fall through the `or` chain and never reach `.replace`). -/
def strOrFalsy : JVal → Bool
  | JVal.str _ => true
  | v => !v.truthy

/-- The string held by a `JVal`, `""` otherwise. -/
def strOf : JVal → String
  | JVal.str s => s
  | _ => ""

/-! ## The batch collector (`apify_to_report.py` cmd_scrape, lines 94-137,
and `apify_scrape.py` wait_for_run, lines 49-68) -/

/-- Terminal and non-terminal states of a remote collection run
(`wait_for_run` polls until the status is one of SUCCEEDED, FAILED,
ABORTED, TIMED-OUT). -/
inductive RunStatus where
  | pending : RunStatus
  | running : RunStatus
  | succeeded : RunStatus
  | failed : RunStatus
  | aborted : RunStatus
  | timedOut : RunStatus
deriving DecidableEq, Repr

def RunStatus.isTerminal : RunStatus → Bool
  | RunStatus.pending => false
  | RunStatus.running => false
  | _ => true

/-- The polling loop of `wait_for_run`: the first terminal status observed
along a status trace (`none` if the trace never terminates in view). -/
def firstTerminal : List RunStatus → Option RunStatus
  | [] => none
  | s :: ss => if s.isTerminal then some s else firstTerminal ss

/-- `wait_for_run` lines 63-68 after the poll loop: records may be
extracted only from a SUCCEEDED run; any other terminal status is
`sys.exit(1)`, modelled as `Except.error ()`. -/
def runOutcome {ρ : Type} (s : RunStatus) (recs : List ρ) : Except Unit (List ρ) :=
  if s = RunStatus.succeeded then Except.ok recs else Except.error ()

/-- `wait_for_run` as a whole: poll the trace to its first terminal status,
then apply the extraction decision. -/
def wait_for_run {ρ : Type} (trace : List RunStatus) (recs : List ρ) :
    Option (Except Unit (List ρ)) :=
  (firstTerminal trace).map (fun s => runOutcome s recs)

/-- The batch loop of `cmd_scrape` (`apify_to_report.py` lines 102-129).
`call` is the collaborator `client.actor(...).call(...)` followed by the
dataset pull: it either returns the *finished run* — its terminal status
together with whatever items its dataset holds, a `FAILED`/`ABORTED`/
`TIMED-OUT` run included, since `.call()` waits for the run to finish and
returns the run object without raising on a non-success status — or raises
(`Except.error`, a transport/API exception).  `cmd_scrape` never inspects
the returned status: it extends the store with the run's items and
continues with the next batch; only a raised exception reaches the
`except` handler, which prints, leaves the store as last checkpointed, and
`break`s. -/
def scrapeBatches {υ ρ : Type} (call : List υ → Except Unit (RunStatus × List ρ)) :
    List (List υ) → List ρ → List ρ
  | [], store => store
  | b :: bs, store =>
    match call b with
    | Except.ok run => scrapeBatches call bs (store ++ run.2)
    | Except.error _ => store

/-- The per-batch record lists of the non-raising prefix of a batch list:
every returned run's items (its status is ignored, as in the source), up
to (and excluding) the first call that raises. -/
def okRecords {υ ρ : Type} (call : List υ → Except Unit (RunStatus × List ρ)) :
    List (List υ) → List (List ρ)
  | [] => []
  | b :: bs =>
    match call b with
    | Except.ok run => run.2 :: okRecords call bs
    | Except.error _ => []

/-- Outcome of one `cmd_scrape` invocation: the persisted store, and
whether control reached the conversion/analysis stages. -/
structure ScrapeOutcome (ρ : Type) where
  store : List ρ
  pipelineContinuedToReports : Bool
deriving Repr

/-- `apify_to_report.py` cmd_scrape lines 85-137: filter the already-scraped
units, chunk the rest, run the batch loop, then *unconditionally* fall
through to `convert_apify_to_csv` and `cmd_analyze` (lines 131-137 sit
outside the loop and outside the `except` handler, which `break`s). -/
def cmd_scrape {υ ρ : Type} [BEq υ] (call : List υ → Except Unit (RunStatus × List ρ))
    (allUnits : List υ) (alreadyScraped : List υ) (bs : Nat)
    (existing : List ρ) : ScrapeOutcome ρ :=
  let rem := allUnits.filter (fun u => !(alreadyScraped.contains u))
  { store := if rem.isEmpty then existing
             else scrapeBatches call (batches bs rem) existing
    pipelineContinuedToReports := true }

/-- The claim C4 scenario: work units u1..u137, batch size 50. -/
def scenarioUnits : List Nat := List.range' 1 137

def scenarioBatch1 : List Nat := List.range' 1 50

/-- A backend for the scenario: batch 1's run succeeds with one record per
unit (represented by the unit itself); batch 2's run finishes with
terminal status FAILED — `.call()` returns it without raising, its dataset
holding the 10 partial records the run produced before failing; batch 3's
run succeeds.  Any other batch raises. -/
def scenarioCall : List Nat → Except Unit (RunStatus × List Nat) :=
  fun b =>
    if b = scenarioBatch1 then Except.ok (RunStatus.succeeded, scenarioBatch1)
    else if b = List.range' 51 50 then Except.ok (RunStatus.failed, List.range' 51 10)
    else if b = List.range' 101 37 then Except.ok (RunStatus.succeeded, List.range' 101 37)
    else Except.error ()

/-! ## The paginated follower store (`ig_api_scraper.py` cmd_followers,
lines 159-219) -/

/-- One user object of a followers page, reduced to the fields the store
update reads: `pk`, `pk_id` and `username` (absent/falsy modelled `""`). -/
structure ApiUser where
  pk : String
  pkId : String
  username : String
deriving DecidableEq, Repr

/-- The record stored per follower (lines 188-195), reduced to its key and
handle. -/
structure FollowerRec where
  ig_user_id : String
  handle : String
deriving DecidableEq, Repr

/-- `uid = str(u.get("pk") or u.get("pk_id", ""))`. -/
def uidOf (u : ApiUser) : String := if u.pk != "" then u.pk else u.pkId

/-- Python `collected[uid] = rec` on a dict modelled as an association
list in insertion order: overwrite in place if the key exists, else append. -/
def upsert (store : List (String × FollowerRec)) (uid : String) (rec : FollowerRec) :
    List (String × FollowerRec) :=
  if store.any (fun p => p.1 == uid) then
    store.map (fun p => if p.1 == uid then (uid, rec) else p)
  else store ++ [(uid, rec)]

/-- Lines 184-195: one user of a page; users without a usable id are
skipped, the rest are keyed by `uid`. -/
def addUser (store : List (String × FollowerRec)) (u : ApiUser) :
    List (String × FollowerRec) :=
  if uidOf u = "" then store
  else upsert store (uidOf u) { ig_user_id := uidOf u, handle := u.username }

/-- One page of the pagination loop (the store is saved to disk after each
page). -/
def processPage (store : List (String × FollowerRec)) (page : List ApiUser) :
    List (String × FollowerRec) :=
  page.foldl addUser store

def processPages (pages : List (List ApiUser)) (store : List (String × FollowerRec)) :
    List (String × FollowerRec) :=
  pages.foldl processPage store

/-- Lines 160-164: reload of a previously persisted followers file —
`collected[str(item["ig_user_id"])] = item` re-keys every stored record by
its own id through the same dict semantics. -/
def loadFollowerStore (file : List FollowerRec) : List (String × FollowerRec) :=
  file.foldl (fun s r => upsert s r.ig_user_id r) []

def keysOf (store : List (String × FollowerRec)) : List String :=
  store.map Prod.fst

/-! ## The retrying HTTP helper `api_get`
(`export_scraper.py` lines 264-294 and `ig_api_scraper.py` lines 93-123;
the two differ only in their wait formulas and default retry counts) -/

/-- One response as `api_get` sees it: an HTTP status code with a parsed
JSON body, or a `requests.exceptions.RequestException` from the transport. -/
inductive HttpResp where
  | http (code : Nat) (body : RawRecord) : HttpResp
  | netErr : HttpResp

/-- How one `api_get` call ends: a returned dict (`value`), the
`sys.exit(1)` on HTTP 401 (`authExit`), or an exception re-raised out of
the function (`raised`). -/
inductive ApiOutcome where
  | value (body : RawRecord) : ApiOutcome
  | authExit : ApiOutcome
  | raised : ApiOutcome
deriving DecidableEq, Repr

/-- The retry loop shared by both `api_get` implementations, parametrised
by the two wait formulas.  `resp a` is the response of attempt `a`
(attempts are numbered from 0).  Returns the outcome and the list of
sleeps performed, in order.  Mirrors the source order of the checks:
429 → sleep and continue; 401 → exit; 404 → return `{}`;
`raise_for_status` raises for 4xx/5xx, which the `except` clause retries
(re-raising on the last attempt); 2xx returns the body; after the loop
falls through, `return {}`. -/
def api_get_loop (wait429 waitErr : Nat → Nat) (resp : Nat → HttpResp)
    (maxRetries : Nat) (attempt : Nat) : ApiOutcome × List Nat :=
  if _h : attempt < maxRetries then
    match resp attempt with
    | HttpResp.http code body =>
      if code = 429 then
        let r := api_get_loop wait429 waitErr resp maxRetries (attempt + 1)
        (r.1, wait429 attempt :: r.2)
      else if code = 401 then (ApiOutcome.authExit, [])
      else if code = 404 then (ApiOutcome.value [], [])
      else if 400 ≤ code ∧ code < 600 then
        if attempt = maxRetries - 1 then (ApiOutcome.raised, [])
        else
          let r := api_get_loop wait429 waitErr resp maxRetries (attempt + 1)
          (r.1, waitErr attempt :: r.2)
      else (ApiOutcome.value body, [])
    | HttpResp.netErr =>
      if attempt = maxRetries - 1 then (ApiOutcome.raised, [])
      else
        let r := api_get_loop wait429 waitErr resp maxRetries (attempt + 1)
        (r.1, waitErr attempt :: r.2)
  else (ApiOutcome.value [], [])
termination_by maxRetries - attempt
decreasing_by
  all_goals omega

/-- `export_scraper.py` line 272: `wait = min(60 * (2 ** attempt), 900)`. -/
def exportWait429 (a : Nat) : Nat := min (60 * 2 ^ a) 900

/-- `export_scraper.py` line 290: `wait = min(30 * (2 ** attempt), 900)`. -/
def exportWaitErr (a : Nat) : Nat := min (30 * 2 ^ a) 900

/-- `ig_api_scraper.py` line 101: `wait = 60 * (2 ** attempt)` — no cap. -/
def igWait429 (a : Nat) : Nat := 60 * 2 ^ a

/-- `ig_api_scraper.py` line 119: `wait = 30 * (2 ** attempt)` — no cap. -/
def igWaitErr (a : Nat) : Nat := 30 * 2 ^ a

/-- `export_scraper.py` api_get (its default `max_retries` is 8). -/
def ExportScraper.api_get (resp : Nat → HttpResp) (maxRetries : Nat) :
    ApiOutcome × List Nat :=
  api_get_loop exportWait429 exportWaitErr resp maxRetries 0

/-- `ig_api_scraper.py` api_get (its default `max_retries` is 3). -/
def IgApiScraper.api_get (resp : Nat → HttpResp) (maxRetries : Nat) :
    ApiOutcome × List Nat :=
  api_get_loop igWait429 igWaitErr resp maxRetries 0

/-- A source that answers HTTP 429 to every attempt. -/
def all429 : Nat → HttpResp := fun _ => HttpResp.http 429 []

/-! ## Export parsing (`export_scraper.py` parse_relationship_entries,
lines 132-179) -/

/-- One `string_list_data` item; absent fields are modelled as the default
their `.get` supplies (`""`, `""`, `0`). -/
structure SLD where
  value : String
  href : String
  timestamp : Nat
deriving DecidableEq, Repr

/-- One relationship item of the export. -/
structure RelItem where
  string_list_data : List SLD
deriving DecidableEq, Repr

/-- One parsed follower/following entry. -/
structure Entry where
  handle : String
  follow_date : String
  timestamp : Nat
deriving DecidableEq, Repr

/-- `href.rstrip("/").split("/")[-1]`. -/
def hrefHandle (href : String) : String :=
  String.mk ((splitChar '/' (rstripSlash href.data)).getLastD [])

/-- Civil date (proleptic Gregorian) from days since 1970-01-01, the
algorithm `datetime.fromtimestamp(_, tz=utc)` implements for non-negative
timestamps. -/
def civilFromDays (z : Nat) : Nat × Nat × Nat :=
  let z4 := z + 719468
  let era := z4 / 146097
  let doe := z4 % 146097
  let yoe := (doe - doe / 1460 + doe / 36524 - doe / 146096) / 365
  let y := yoe + era * 400
  let doy := doe - (365 * yoe + yoe / 4 - yoe / 100)
  let mp := (5 * doy + 2) / 153
  let d := doy - (153 * mp + 2) / 5 + 1
  let m := if mp < 10 then mp + 3 else mp - 9
  (if m ≤ 2 then y + 1 else y, m, d)

def pad2 (n : Nat) : String :=
  if n < 10 then "0" ++ toString n else toString n

/-- `datetime.fromtimestamp(ts, tz=timezone.utc).strftime("%Y-%m-%d")` for
a non-negative integer timestamp. -/
def fmtUtcDate (ts : Nat) : String :=
  let c := civilFromDays (ts / 86400)
  toString c.1 ++ "-" ++ pad2 c.2.1 ++ "-" ++ pad2 c.2.2

/-- Lines 156-177: one `string_list_data` item becomes an entry, or is
dropped.  The username is the stripped `value`; when that is empty it is
recovered from an `instagram.com` href; items still without a username are
skipped.  `follow_date` is formatted only for a truthy (non-zero)
timestamp. -/
def parseSLD (sd : SLD) : Option Entry :=
  let u0 := pyStrip sd.value
  let u := if u0 = "" then
      (if strContains sd.href "instagram.com/" then hrefHandle sd.href else "")
    else u0
  if u = "" then none
  else some { handle := u
              follow_date := if sd.timestamp = 0 then "" else fmtUtcDate sd.timestamp
              timestamp := sd.timestamp }

/-- The two accepted export shapes: a list of items (format A), or an
object whose first list-valued entry holds the items (format B); a `none`
value stands for a non-list JSON value under that key. -/
inductive RelData where
  | arr (items : List RelItem) : RelData
  | obj (kvs : List (String × Option (List RelItem))) : RelData

/-- Lines 143-150: unwrap format B by taking the first list value; an
object with no list value yields no entries. -/
def unwrapRelData : RelData → List RelItem
  | RelData.arr items => items
  | RelData.obj kvs =>
    match kvs.find? (fun p => p.2.isSome) with
    | some p => p.2.getD []
    | none => []

/-- `parse_relationship_entries` over either format. -/
def parse_relationship_entries (d : RelData) : List Entry :=
  ((unwrapRelData d).map (fun it => it.string_list_data.filterMap parseSLD)).flatten

/-! ## The follower-name checkpoint writer
(`scrape_followers.py` cmd_followers, lines 81-159) -/

/-- Python `set.add` preceded by the `in` check of line 122 (order of a
Python set is irrelevant: only membership matters, and every save sorts). -/
def addFollower (collected : List String) (u : String) : List String :=
  if collected.contains u then collected else collected ++ [u]

/-- Line 94: `collected = set(json.load(f))` — rebuilding the set
deduplicates whatever the file holds. -/
def loadFollowersFile (file : List String) : List String :=
  file.foldl addFollower []

/-- Python `sorted(collected)`: the unique sorted arrangement of the
collected names (insertion sort is extensionally the sort Python performs). -/
def pySorted (l : List String) : List String :=
  l.insertionSort (fun a b => a ≤ b)

/-- The list `json.dump(sorted(collected), f)` persists at any checkpoint
reached after the usernames `us` have been offered to the set that started
from file contents `file`.  All three save sites (periodic, on rate-limit
error, final) write exactly this. -/
def savedFollowers (file us : List String) : List String :=
  pySorted (us.foldl addFollower (loadFollowersFile file))

theorem batches_zero {α : Type} (l : List α) : batches 0 l = [] := by
  rw [batches]
  simp

theorem batches_nil {α : Type} (bs : Nat) : batches bs ([] : List α) = [] := by
  rw [batches]
  simp

theorem batches_cons {α : Type} (bs : Nat) (l : List α) (h : 0 < bs) (hl : l ≠ []) :
    batches bs l = l.take bs :: batches bs (l.drop bs) := by
  rw [batches]
  simp [Nat.pos_iff_ne_zero.mp h, hl]

theorem batches_flatten {α : Type} (bs : Nat) (h : 0 < bs) (l : List α) :
    (batches bs l).flatten = l := by
  by_cases hl : l = []
  · subst hl
    simp [batches_nil]
  · rw [batches_cons bs l h hl]
    rw [List.flatten_cons]
    rw [batches_flatten bs h (l.drop bs)]
    exact List.take_append_drop bs l
termination_by l.length
decreasing_by
  have hlen : 0 < l.length := List.length_pos.mpr hl
  simp only [List.length_drop]
  omega

theorem batches_count {α : Type} (bs : Nat) (h : 0 < bs) (l : List α) :
    (batches bs l).length = (l.length + bs - 1) / bs := by
  by_cases hl : l = []
  · subst hl
    rw [batches_nil]
    simp only [List.length_nil, Nat.zero_add]
    exact (Nat.div_eq_of_lt (by omega)).symm
  · rw [batches_cons bs l h hl]
    have hlen : 0 < l.length := List.length_pos.mpr hl
    have ih := batches_count bs h (l.drop bs)
    simp only [List.length_cons, ih, List.length_drop]
    have hr : l.length + bs - 1 = (l.length - 1) + bs := by omega
    rw [hr, Nat.add_div_right _ h]
    by_cases hle : l.length ≤ bs
    · have h0 : l.length - bs = 0 := by omega
      rw [h0]
      have : (0 + bs - 1) / bs = 0 := Nat.div_eq_of_lt (by omega)
      rw [this]
      have : (l.length - 1) / bs = 0 := Nat.div_eq_of_lt (by omega)
      omega
    · have hr2 : l.length - bs + bs - 1 = (l.length - 1 - bs) + bs := by omega
      rw [hr2, Nat.add_div_right _ h]
      have hx : l.length - 1 = (l.length - 1 - bs) + bs := by omega
      conv_rhs => rw [hx]
      rw [Nat.add_div_right _ h]
termination_by l.length
decreasing_by
  have _hlen : 0 < l.length := List.length_pos.mpr hl
  simp only [List.length_drop]
  omega

theorem batches_mem {α : Type} (bs : Nat) (h : 0 < bs) (l : List α) :
    ∀ b ∈ batches bs l, b ≠ [] ∧ b.length ≤ bs := by
  by_cases hl : l = []
  · subst hl
    simp [batches_nil]
  · rw [batches_cons bs l h hl]
    intro b hb
    rcases List.mem_cons.mp hb with hb1 | hb2
    · subst hb1
      constructor
      · rw [Ne, List.take_eq_nil_iff]
        push_neg
        exact ⟨Nat.pos_iff_ne_zero.mp h, hl⟩
      · rw [List.length_take]
        exact min_le_left _ _
    · exact batches_mem bs h (l.drop bs) b hb2
termination_by l.length
decreasing_by
  have hlen : 0 < l.length := List.length_pos.mpr hl
  simp only [List.length_drop]
  omega

/-! ## Helper lemmas for the batch collector and the stores -/

theorem scrapeBatches_eq_okRecords {υ ρ : Type}
    (call : List υ → Except Unit (RunStatus × List ρ))
    (bl : List (List υ)) (store : List ρ) :
    scrapeBatches call bl store = store ++ (okRecords call bl).flatten := by
  induction bl generalizing store with
  | nil => simp [scrapeBatches, okRecords]
  | cons b bs ih =>
    simp only [scrapeBatches, okRecords]
    cases hc : call b with
    | ok run => simp [ih, List.append_assoc]
    | error e => simp

theorem scrapeBatches_ok_front {υ ρ : Type}
    (call : List υ → Except Unit (RunStatus × List ρ))
    (pre rest : List (List υ)) (store : List ρ)
    (hpre : ∀ x ∈ pre, ∃ run, call x = Except.ok run) :
    scrapeBatches call (pre ++ rest) store
      = scrapeBatches call rest (store ++ (okRecords call pre).flatten) := by
  induction pre generalizing store with
  | nil => simp [okRecords]
  | cons b bs ih =>
    obtain ⟨run, hb⟩ := hpre b (List.mem_cons_self b bs)
    simp only [List.cons_append, scrapeBatches, okRecords, hb]
    rw [List.flatten_cons, ← List.append_assoc]
    exact ih (store ++ run.2) (fun x hx => hpre x (List.mem_cons_of_mem b hx))

theorem scrapeBatches_nodup (call : List String → Except Unit (RunStatus × List String))
    (bl : List (List String)) (store : List String)
    (hcall : ∀ b run, call b = Except.ok run → run.2.Nodup ∧ ∀ u ∈ run.2, u ∈ b)
    (hstore : (load_already_scraped store).Nodup)
    (hbl : bl.flatten.Nodup)
    (hdisj : ∀ u ∈ bl.flatten, u ∉ load_already_scraped store) :
    (load_already_scraped (scrapeBatches call bl store)).Nodup := by
  induction bl generalizing store with
  | nil => simpa [scrapeBatches] using hstore
  | cons b bs ih =>
    simp only [scrapeBatches]
    cases hc : call b with
    | error e => exact hstore
    | ok run =>
      obtain ⟨st, items⟩ := run
      obtain ⟨hitems, hsub⟩ := hcall b (st, items) hc
      rw [List.flatten_cons] at hbl hdisj
      have hbnd := List.nodup_append.mp hbl
      apply ih (store ++ items)
      · unfold load_already_scraped at *
        rw [List.filter_append, List.nodup_append]
        refine ⟨hstore, List.Nodup.filter _ hitems, ?_⟩
        intro u hu hu2
        have hu2m : u ∈ items := (List.mem_filter.mp hu2).1
        exact hdisj u (List.mem_append_left _ (hsub u hu2m)) hu
      · exact hbnd.2.1
      · intro u hu hmem
        unfold load_already_scraped at hmem
        rw [List.filter_append, List.mem_append] at hmem
        rcases hmem with hm1 | hm2
        · exact hdisj u (List.mem_append_right _ hu) hm1
        · have hui : u ∈ items := (List.mem_filter.mp hm2).1
          exact hbnd.2.2 (hsub u hui) hu

theorem keysOf_upsert (s : List (String × FollowerRec)) (k : String) (rec : FollowerRec) :
    keysOf (upsert s k rec)
      = if s.any (fun p => p.1 == k) then keysOf s else keysOf s ++ [k] := by
  unfold upsert keysOf
  split
  · rw [List.map_map]
    apply List.map_congr_left
    intro p _
    by_cases hp : p.1 = k
    · simp [hp]
    · simp [hp]
  · simp

theorem upsert_nodup (s : List (String × FollowerRec)) (k : String) (rec : FollowerRec)
    (h : (keysOf s).Nodup) : (keysOf (upsert s k rec)).Nodup := by
  rw [keysOf_upsert]
  split
  · exact h
  · rename_i hany
    rw [List.nodup_append]
    refine ⟨h, List.nodup_singleton k, ?_⟩
    intro a ha hak
    rw [List.mem_singleton] at hak
    subst hak
    rw [List.any_eq_true] at hany
    unfold keysOf at ha
    obtain ⟨p, hp, hpk⟩ := List.mem_map.mp ha
    exact hany ⟨p, hp, by simp [hpk]⟩

theorem addUser_nodup (s : List (String × FollowerRec)) (u : ApiUser)
    (h : (keysOf s).Nodup) : (keysOf (addUser s u)).Nodup := by
  unfold addUser
  split
  · exact h
  · exact upsert_nodup _ _ _ h

theorem foldl_addUser_nodup (page : List ApiUser) (s : List (String × FollowerRec))
    (h : (keysOf s).Nodup) : (keysOf (page.foldl addUser s)).Nodup := by
  induction page generalizing s with
  | nil => exact h
  | cons a t ih => exact ih _ (addUser_nodup s a h)

theorem processPages_nodup (pages : List (List ApiUser)) (s : List (String × FollowerRec))
    (h : (keysOf s).Nodup) : (keysOf (processPages pages s)).Nodup := by
  induction pages generalizing s with
  | nil => exact h
  | cons p ps ih => exact ih _ (foldl_addUser_nodup p s h)

theorem loadFollowerStore_nodup (file : List FollowerRec) :
    (keysOf (loadFollowerStore file)).Nodup := by
  unfold loadFollowerStore
  have : ∀ (l : List FollowerRec) (s : List (String × FollowerRec)),
      (keysOf s).Nodup → (keysOf (l.foldl (fun s r => upsert s r.ig_user_id r) s)).Nodup := by
    intro l
    induction l with
    | nil => intro s hs; exact hs
    | cons r t ih => intro s hs; exact ih _ (upsert_nodup s r.ig_user_id r hs)
  exact this file [] (by simp [keysOf])

/-! ## Helper lemmas for `api_get` -/

theorem api_get_loop_429 (w we : Nat → Nat) (resp : Nat → HttpResp)
    (maxRetries attempt : Nat)
    (h : ∀ k, ∃ body, resp k = HttpResp.http 429 body) :
    api_get_loop w we resp maxRetries attempt
      = (ApiOutcome.value [], (List.range' attempt (maxRetries - attempt)).map w) := by
  by_cases ha : attempt < maxRetries
  · obtain ⟨body, hb⟩ := h attempt
    unfold api_get_loop
    rw [dif_pos ha, hb]
    simp only [if_pos rfl]
    rw [api_get_loop_429 w we resp maxRetries (attempt + 1) h]
    have hr : maxRetries - attempt = (maxRetries - (attempt + 1)) + 1 := by omega
    rw [hr, List.range'_succ]
    simp
  · unfold api_get_loop
    rw [dif_neg ha]
    have hr : maxRetries - attempt = 0 := by omega
    rw [hr]
    simp
termination_by maxRetries - attempt
decreasing_by
  omega

theorem api_get_loop_len (w we : Nat → Nat) (resp : Nat → HttpResp)
    (maxRetries attempt : Nat) :
    (api_get_loop w we resp maxRetries attempt).2.length ≤ maxRetries - attempt := by
  by_cases ha : attempt < maxRetries
  · unfold api_get_loop
    rw [dif_pos ha]
    have ih := api_get_loop_len w we resp maxRetries (attempt + 1)
    cases hr : resp attempt with
    | http code body =>
      dsimp only
      by_cases h429 : code = 429
      · simp only [if_pos h429, List.length_cons]
        omega
      · rw [if_neg h429]
        by_cases h401 : code = 401
        · simp [if_pos h401]
        · rw [if_neg h401]
          by_cases h404 : code = 404
          · simp [if_pos h404]
          · rw [if_neg h404]
            by_cases herr : 400 ≤ code ∧ code < 600
            · rw [if_pos herr]
              by_cases hlast : attempt = maxRetries - 1
              · simp [if_pos hlast]
              · simp only [if_neg hlast, List.length_cons]
                omega
            · simp [if_neg herr]
    | netErr =>
      dsimp only
      by_cases hlast : attempt = maxRetries - 1
      · simp [if_pos hlast]
      · simp only [if_neg hlast, List.length_cons]
        omega
  · unfold api_get_loop
    rw [dif_neg ha]
    simp
termination_by maxRetries - attempt
decreasing_by
  all_goals omega

theorem api_get_loop_netErr (w we : Nat → Nat) (resp : Nat → HttpResp)
    (maxRetries attempt : Nat) (h : ∀ k, resp k = HttpResp.netErr)
    (ha : attempt < maxRetries) :
    (api_get_loop w we resp maxRetries attempt).1 = ApiOutcome.raised := by
  unfold api_get_loop
  rw [dif_pos ha, h attempt]
  by_cases hlast : attempt = maxRetries - 1
  · simp [if_pos hlast]
  · rw [if_neg hlast]
    exact api_get_loop_netErr w we resp maxRetries (attempt + 1) h (by omega)
termination_by maxRetries - attempt
decreasing_by
  omega

/-! ## Helper lemmas for the normalizer -/

theorem bio_chain_str (a b : JVal) (ha : strOrFalsy a = true) (hb : strOrFalsy b = true) :
    ∃ s, pyOr a (pyOr b (JVal.str "")) = JVal.str s := by
  unfold pyOr
  by_cases hta : a.truthy
  · rw [if_pos hta]
    cases a with
    | str s => exact ⟨s, rfl⟩
    | null => simp [JVal.truthy] at hta
    | bool x =>
      simp [strOrFalsy, JVal.truthy] at ha
      simp [JVal.truthy, ha] at hta
    | num n =>
      simp [strOrFalsy, JVal.truthy] at ha
      simp [JVal.truthy, ha] at hta
  · rw [if_neg hta]
    by_cases htb : b.truthy
    · rw [if_pos htb]
      cases b with
      | str s => exact ⟨s, rfl⟩
      | null => simp [JVal.truthy] at htb
      | bool x =>
        simp [strOrFalsy, JVal.truthy] at hb
        simp [JVal.truthy, hb] at htb
      | num n =>
        simp [strOrFalsy, JVal.truthy] at hb
        simp [JVal.truthy, hb] at htb
    · rw [if_neg htb]
      exact ⟨"", rfl⟩

/-! ## Helper lemmas for the export parser -/

theorem parseSLD_some (sd : SLD) (e : Entry) (h : parseSLD sd = some e) :
    e.handle ≠ "" ∧ e.follow_date
      = (if e.timestamp = 0 then "" else fmtUtcDate e.timestamp) := by
  unfold parseSLD at h
  set u := if pyStrip sd.value = "" then
      (if strContains sd.href "instagram.com/" then hrefHandle sd.href else "")
    else pyStrip sd.value with hu
  by_cases hz : u = ""
  · rw [if_pos hz] at h
    exact absurd h (by simp)
  · rw [if_neg hz] at h
    have he := Option.some.inj h
    subst he
    exact ⟨hz, rfl⟩

theorem mem_parse_entries (d : RelData) (e : Entry)
    (h : e ∈ parse_relationship_entries d) : ∃ sd, parseSLD sd = some e := by
  unfold parse_relationship_entries at h
  rw [List.mem_flatten] at h
  obtain ⟨l, hl, hel⟩ := h
  obtain ⟨it, _, hit⟩ := List.mem_map.mp hl
  subst hit
  obtain ⟨sd, _, hsd⟩ := List.mem_filterMap.mp hel
  exact ⟨sd, hsd⟩

/-! ## Helper lemmas for the follower checkpoint writer -/

theorem addFollower_nodup (collected : List String) (u : String)
    (h : collected.Nodup) : (addFollower collected u).Nodup := by
  unfold addFollower
  split
  · exact h
  · rename_i hc
    rw [List.nodup_append]
    refine ⟨h, List.nodup_singleton u, ?_⟩
    intro a ha hau
    rw [List.mem_singleton] at hau
    subst hau
    exact hc (by simpa [List.elem_iff] using ha)

theorem foldl_addFollower_nodup (us : List String) (collected : List String)
    (h : collected.Nodup) : (us.foldl addFollower collected).Nodup := by
  induction us generalizing collected with
  | nil => exact h
  | cons a t ih => exact ih _ (addFollower_nodup collected a h)

/-! ## Claim theorems -/

/-- C1: for every remaining work-unit list and every positive batch size
`bs`, the collector produces `ceil(N / bs)` contiguous batches in original
order: their in-order concatenation equals the remaining list exactly (no
drops, no reordering, no duplicates), every batch is non-empty, and no
batch exceeds the batch size. -/
theorem C1_batch_partition_coverage {α : Type} (l : List α) (bs : Nat) (h : 0 < bs) :
    (batches bs l).flatten = l
    ∧ (batches bs l).length = (l.length + bs - 1) / bs
    ∧ ∀ b ∈ batches bs l, b ≠ [] ∧ b.length ≤ bs :=
  ⟨batches_flatten bs h l, batches_count bs h l, batches_mem bs h l⟩

theorem C1_batch_partition_coverage_witness :
    (batches 50 (List.range 137)).flatten = List.range 137
    ∧ (batches 50 (List.range 137)).length = ((List.range 137).length + 50 - 1) / 50 :=
  ⟨(C1_batch_partition_coverage (List.range 137) 50 (by decide)).1,
   (C1_batch_partition_coverage (List.range 137) 50 (by decide)).2.1⟩

/-- C2: `remainingUnits` returns exactly the work units whose identifier is
not in the done set, in the original order (it is a sublist of the input);
in particular, for `W = [u1, u2, u3, u4]` and a store holding records for
`u1` and `u3`, the remaining list is `[u2, u4]`. -/
theorem C2_resume_filtering (w done : List String) :
    (remainingUnits w done).Sublist w
    ∧ (∀ u, u ∈ remainingUnits w done ↔ u ∈ w ∧ ¬ u ∈ done)
    ∧ remainingUnits ["u1", "u2", "u3", "u4"] (load_already_scraped ["u1", "u3"])
        = ["u2", "u4"] := by
  refine ⟨List.filter_sublist w, ?_, by decide⟩
  intro u
  unfold remainingUnits
  rw [List.mem_filter]
  simp [List.elem_iff]

/-- C3 counterexample: the claim asserts that boolean-like source values
are coerced to a canonical boolean and that `normalize` never raises.  On
the raw record `{"isVerified": "true"}` — a shape the spec itself lists as
a boolean-like arrival — the code stores the uncoerced string `"true"` in
`is_verified`, which is no boolean; and on `{"biography": 3}` the bio
transform `.replace` raises `AttributeError`. -/
theorem C3_normalization_counterexample :
    normOk [("isVerified", JVal.str "true")] = true
    ∧ (normGet [("isVerified", JVal.str "true")]).is_verified = JVal.str "true"
    ∧ JVal.str "true" ≠ JVal.bool true
    ∧ JVal.str "true" ≠ JVal.bool false
    ∧ normOk [("biography", JVal.num 3)] = false := by
  refine ⟨rfl, rfl, by decide, by decide, rfl⟩

/-- C3 (amended): provided every bio-source field (`biography`, `bio`)
holds a string or a falsy value, `normalize` returns a record with every
canonical field present and does not raise; each canonical field is the
first *truthy* value of its ordered alias chain, passed through unchanged
(no boolean coercion), with `0` for missing numeric fields, `""` for
missing string fields, `false` for missing boolean fields, and newlines in
the bio replaced by `" | "`; the record with all fields absent yields all
defaults, and `{"userName": "bob", "followers": 12}` yields handle
`"bob"`, follower_count `12`, following_count `0`, is_verified `false`. -/
theorem C3_normalization_amended (r : RawRecord)
    (hb1 : strOrFalsy (getField r "biography") = true)
    (hb2 : strOrFalsy (getField r "bio") = true) :
    normOk r = true
    ∧ (normGet r).handle = firstTruthy r ["username", "userName", "handle"] (JVal.str "")
    ∧ (normGet r).ig_user_id = firstTruthy r ["id", "pk", "userId", "iguid"] (JVal.str "")
    ∧ (normGet r).full_name = firstTruthy r ["fullName", "full_name"] (JVal.str "")
    ∧ (normGet r).follower_count
        = firstTruthy r ["followerCount", "followers", "follower_count"] (JVal.num 0)
    ∧ (normGet r).following_count
        = firstTruthy r ["followingCount", "following", "following_count"] (JVal.num 0)
    ∧ (normGet r).is_verified = firstTruthy r ["isVerified", "is_verified"] (JVal.bool false)
    ∧ (normGet r).is_private = firstTruthy r ["isPrivate", "is_private"] (JVal.bool false)
    ∧ (normGet r).post_count
        = firstTruthy r ["mediaCount", "postsCount", "post_count"] (JVal.num 0)
    ∧ (normGet r).external_url = firstTruthy r ["externalUrl", "external_url"] (JVal.str "")
    ∧ (normGet r).profile_pic_url
        = firstTruthy r ["profilePicUrl", "profile_pic_url"] (JVal.str "")
    ∧ (normGet r).bio = JVal.str (pyReplaceNl (strOf (pyOr (getField r "biography")
        (pyOr (getField r "bio") (JVal.str "")))))
    ∧ normOk [] = true
    ∧ normGet []
        = ⟨JVal.str "", JVal.str "", JVal.str "", JVal.num 0, JVal.num 0,
           JVal.bool false, JVal.bool false, JVal.str "", JVal.num 0,
           JVal.str "", JVal.str ""⟩
    ∧ normGet [("userName", JVal.str "bob"), ("followers", JVal.num 12)]
        = ⟨JVal.str "bob", JVal.str "", JVal.str "", JVal.num 12, JVal.num 0,
           JVal.bool false, JVal.bool false, JVal.str "", JVal.num 0,
           JVal.str "", JVal.str ""⟩ := by
  obtain ⟨s, hs⟩ := bio_chain_str _ _ hb1 hb2
  have hget : normGet r =
      { handle := pyOr (getField r "username")
          (pyOr (getField r "userName") (pyOr (getField r "handle") (JVal.str "")))
        ig_user_id := pyOr (getField r "id")
          (pyOr (getField r "pk")
            (pyOr (getField r "userId") (pyOr (getField r "iguid") (JVal.str ""))))
        full_name := pyOr (getField r "fullName")
          (pyOr (getField r "full_name") (JVal.str ""))
        follower_count := pyOr (getField r "followerCount")
          (pyOr (getField r "followers")
            (pyOr (getField r "follower_count") (JVal.num 0)))
        following_count := pyOr (getField r "followingCount")
          (pyOr (getField r "following")
            (pyOr (getField r "following_count") (JVal.num 0)))
        is_verified := pyOr (getField r "isVerified")
          (pyOr (getField r "is_verified") (JVal.bool false))
        is_private := pyOr (getField r "isPrivate")
          (pyOr (getField r "is_private") (JVal.bool false))
        bio := JVal.str (pyReplaceNl s)
        post_count := pyOr (getField r "mediaCount")
          (pyOr (getField r "postsCount")
            (pyOr (getField r "post_count") (JVal.num 0)))
        external_url := pyOr (getField r "externalUrl")
          (pyOr (getField r "external_url") (JVal.str ""))
        profile_pic_url := pyOr (getField r "profilePicUrl")
          (pyOr (getField r "profile_pic_url") (JVal.str "")) } := by
    unfold normGet normalizeFollower
    rw [hs]
    rfl
  have hok : normOk r = true := by
    unfold normOk normalizeFollower
    rw [hs]
    rfl
  refine ⟨hok, ?_, ?_, ?_, ?_, ?_, ?_, ?_, ?_, ?_, ?_, ?_, by decide, by decide, by decide⟩
  all_goals rw [hget]
  all_goals first
  | (rw [hs]; simp [strOf])
  | simp [firstTruthy, pyOr]

theorem C3_normalization_amended_witness :
    strOrFalsy (getField [("userName", JVal.str "bob"), ("followers", JVal.num 12)]
      "biography") = true
    ∧ (normGet [("userName", JVal.str "bob"), ("followers", JVal.num 12)]).handle
        = firstTruthy [("userName", JVal.str "bob"), ("followers", JVal.num 12)]
            ["username", "userName", "handle"] (JVal.str "") :=
  ⟨by decide,
   (C3_normalization_amended [("userName", JVal.str "bob"), ("followers", JVal.num 12)]
      (by decide) (by decide)).2.1⟩

/-- C4 counterexample: in the claim's own scenario (`remaining = [u1..u137]`,
`batch_size = 50`, batch 2's run terminates as FAILED) `cmd_scrape` refutes
every part of the claim: `client.actor(...).call()` returns the failed run
without raising and `cmd_scrape` never checks its status, so the failed
run's dataset items (here 10 partial records) are extracted into the
store, batch 3 is still submitted and its records stored — the store is
not "exactly the 50 records of batch 1" — and the pipeline proceeds to the
conversion and analysis stages instead of stopping with a fatal error. -/
theorem C4_remote_failure_counterexample :
    (cmd_scrape scenarioCall scenarioUnits [] 50 []).store
      = (List.range' 1 50 ++ List.range' 51 10) ++ List.range' 101 37
    ∧ (51 : Nat) ∈ (cmd_scrape scenarioCall scenarioUnits [] 50 []).store
    ∧ (101 : Nat) ∈ (cmd_scrape scenarioCall scenarioUnits [] 50 []).store
    ∧ (cmd_scrape scenarioCall scenarioUnits [] 50 []).store ≠ scenarioBatch1
    ∧ (cmd_scrape scenarioCall scenarioUnits [] 50 []).pipelineContinuedToReports = true := by
  have h1 : List.drop 50 scenarioUnits = List.range' 51 87 := by decide
  have h2 : List.drop 50 (List.range' 51 87) = List.range' 101 37 := by decide
  have h3 : List.drop 50 (List.range' 101 37) = [] := by decide
  have hb : batches 50 scenarioUnits
      = [scenarioBatch1, List.range' 51 50, List.range' 101 37] := by
    rw [batches_cons 50 scenarioUnits (by decide) (by decide), h1,
        batches_cons 50 (List.range' 51 87) (by decide) (by decide), h2,
        batches_cons 50 (List.range' 101 37) (by decide) (by decide), h3,
        batches_nil]
    decide
  have hrem : scenarioUnits.filter (fun u => !(([] : List Nat).contains u))
      = scenarioUnits := by decide
  have hstore : (cmd_scrape scenarioCall scenarioUnits [] 50 []).store
      = (List.range' 1 50 ++ List.range' 51 10) ++ List.range' 101 37 := by
    show (if (scenarioUnits.filter (fun u => !(([] : List Nat).contains u))).isEmpty
        then ([] : List Nat)
        else scrapeBatches scenarioCall
          (batches 50 (scenarioUnits.filter (fun u => !(([] : List Nat).contains u)))) [])
      = (List.range' 1 50 ++ List.range' 51 10) ++ List.range' 101 37
    rw [hrem, hb]
    decide
  refine ⟨hstore, ?_, ?_, ?_, rfl⟩
  · rw [hstore]
    decide
  · rw [hstore]
    decide
  · rw [hstore]
    decide

/-- C4 (amended): the claimed semantics — records only from a SUCCEEDED
run, fatal stop otherwise — live only in the (uncalled) polling helper
`wait_for_run` of `apify_scrape.py`, which refuses extraction and exits
the process on any non-succeeded terminal status.  `cmd_scrape`
(`apify_to_report.py`) never inspects the run status: a run returned by
`.call()` with *any* terminal status, FAILED included, has its dataset
items appended to the store and collection continues with the next batch.
Only a raised exception stops collection — the store then keeps exactly
the previously checkpointed records and no later batch is submitted — and
even then `cmd_scrape` proceeds to the conversion and analysis stages,
exiting normally rather than fatally. -/
theorem C4_remote_failure_amended {υ ρ : Type} [BEq υ]
    (call : List υ → Except Unit (RunStatus × List ρ))
    (pre post : List (List υ)) (b bf : List υ)
    (store recs items : List ρ) (s st : RunStatus) (trace : List RunStatus)
    (allUnits scraped : List υ) (bs : Nat) (existing : List ρ)
    (hs : s ≠ RunStatus.succeeded)
    (hbf : call bf = Except.ok (st, items))
    (hb : call b = Except.error ())
    (hpre : ∀ x ∈ pre, ∃ run, call x = Except.ok run) :
    scrapeBatches call (bf :: post) store = scrapeBatches call post (store ++ items)
    ∧ scrapeBatches call (pre ++ b :: post) store = store ++ (okRecords call pre).flatten
    ∧ runOutcome s recs = Except.error ()
    ∧ (firstTerminal trace = some s → wait_for_run trace recs = some (Except.error ()))
    ∧ (cmd_scrape call allUnits scraped bs existing).pipelineContinuedToReports = true := by
  refine ⟨?_, ?_, ?_, ?_, rfl⟩
  · simp [scrapeBatches, hbf]
  · rw [scrapeBatches_ok_front call pre (b :: post) store hpre]
    simp [scrapeBatches, hb]
  · unfold runOutcome
    rw [if_neg hs]
  · intro ht
    unfold wait_for_run runOutcome
    rw [ht]
    simp [hs]

theorem C4_remote_failure_amended_witness :
    RunStatus.failed ≠ RunStatus.succeeded
    ∧ scenarioCall (List.range' 51 50) = Except.ok (RunStatus.failed, List.range' 51 10)
    ∧ scenarioCall [] = Except.error ()
    ∧ (scrapeBatches scenarioCall (List.range' 51 50 :: [List.range' 101 37]) []
          = scrapeBatches scenarioCall [List.range' 101 37] ([] ++ List.range' 51 10)
      ∧ scrapeBatches scenarioCall
          ([scenarioBatch1] ++ ([] : List Nat) :: [List.range' 101 37]) []
            = [] ++ (okRecords scenarioCall [scenarioBatch1]).flatten
      ∧ runOutcome RunStatus.failed ([] : List Nat) = Except.error ()
      ∧ (firstTerminal [RunStatus.running, RunStatus.failed] = some RunStatus.failed →
          wait_for_run [RunStatus.running, RunStatus.failed] ([] : List Nat)
            = some (Except.error ()))
      ∧ (cmd_scrape scenarioCall scenarioUnits [] 50 []).pipelineContinuedToReports
          = true) := by
  refine ⟨by decide, rfl, rfl, ?_⟩
  exact C4_remote_failure_amended scenarioCall [scenarioBatch1] [List.range' 101 37]
    ([] : List Nat) (List.range' 51 50) [] [] (List.range' 51 10)
    RunStatus.failed RunStatus.failed [RunStatus.running, RunStatus.failed]
    scenarioUnits [] 50 [] (by decide) rfl rfl
    (fun x hx => by
      rw [List.mem_singleton] at hx
      subst hx
      exact ⟨(RunStatus.succeeded, scenarioBatch1), rfl⟩)

/-- C5: the persisted stores never hold two records with the same work-unit
identifier.  (i) `ig_api_scraper.py` cmd_followers keys its store as a dict
by user id: after reloading any file and processing any sequence of pages,
the keys are duplicate-free — re-collection overwrites in place.  (ii)
`apify_to_report.py` cmd_scrape appends, but only after filtering out
already-stored usernames; for a duplicate-free work-unit list and a backend
whose returned runs (whatever their status) hold at most one record per
requested username of their own batch, the store's non-empty usernames
stay duplicate-free across any run, hence
across any number of restarts — re-collection is skipped. -/
theorem C5_no_duplication (pages : List (List ApiUser)) (fileRecs : List FollowerRec)
    (allUnits store0 : List String)
    (call : List String → Except Unit (RunStatus × List String))
    (bs : Nat) (hall : allUnits.Nodup) (hbs : 0 < bs)
    (hcall : ∀ b run, call b = Except.ok run → run.2.Nodup ∧ ∀ u ∈ run.2, u ∈ b)
    (hstore : (load_already_scraped store0).Nodup) :
    (keysOf (processPages pages (loadFollowerStore fileRecs))).Nodup
    ∧ (load_already_scraped (scrapeBatches call
        (batches bs (remainingUnits allUnits (load_already_scraped store0)))
        store0)).Nodup := by
  constructor
  · exact processPages_nodup pages _ (loadFollowerStore_nodup fileRecs)
  · have hremnd : (remainingUnits allUnits (load_already_scraped store0)).Nodup :=
      (List.filter_sublist allUnits).nodup hall
    have hflat : (batches bs (remainingUnits allUnits (load_already_scraped store0))).flatten
        = remainingUnits allUnits (load_already_scraped store0) :=
      batches_flatten bs hbs _
    apply scrapeBatches_nodup call _ store0 hcall hstore
    · rw [hflat]
      exact hremnd
    · rw [hflat]
      intro u hu hmem
      unfold remainingUnits at hu
      rw [List.mem_filter] at hu
      have := hu.2
      rw [Bool.not_eq_eq_eq_not, Bool.not_true, ← Bool.not_eq_true] at this
      exact this (by simpa [List.elem_iff] using hmem)

theorem C5_no_duplication_witness :
    (["a", "b"] : List String).Nodup
    ∧ (0 : Nat) < 1
    ∧ ((keysOf (processPages [[⟨"1", "", "a"⟩], [⟨"1", "", "a2"⟩]]
          (loadFollowerStore [⟨"7", "x"⟩, ⟨"7", "y"⟩]))).Nodup
      ∧ (load_already_scraped (scrapeBatches
          (fun b => if b = ["b"] then Except.ok (RunStatus.succeeded, ["b"])
                    else Except.error ())
          (batches 1 (remainingUnits ["a", "b"] (load_already_scraped ["a"])))
          ["a"])).Nodup) := by
  refine ⟨by decide, by decide, ?_⟩
  exact C5_no_duplication [[⟨"1", "", "a"⟩], [⟨"1", "", "a2"⟩]] [⟨"7", "x"⟩, ⟨"7", "y"⟩]
    ["a", "b"] ["a"]
    (fun b => if b = ["b"] then Except.ok (RunStatus.succeeded, ["b"])
              else Except.error ())
    1 (by decide) (by decide)
    (fun b run h => by
      dsimp only at h
      by_cases hb : b = ["b"]
      · rw [if_pos hb] at h
        cases h
        exact ⟨by decide, by simp [hb]⟩
      · rw [if_neg hb] at h
        cases h)
    (by decide)

/-- C6 counterexample: `ig_api_scraper.py` computes `wait = 60 * 2 **
attempt` with no cap.  Under consecutive rate-limit signals with
`max_retries = 8` (the very default `export_scraper.py` uses for the same
helper) its fifth wait is 960s, above the claimed 900s cap. -/
theorem C6_backoff_counterexample :
    (IgApiScraper.api_get all429 8).2 = [60, 120, 240, 480, 960, 1920, 3840, 7680]
    ∧ (960 : Nat) ∈ (IgApiScraper.api_get all429 8).2
    ∧ ¬ (960 : Nat) ≤ 900 := by
  have h : (IgApiScraper.api_get all429 8).2
      = [60, 120, 240, 480, 960, 1920, 3840, 7680] := by
    unfold IgApiScraper.api_get
    rw [api_get_loop_429 igWait429 igWaitErr all429 8 0 (fun k => ⟨[], rfl⟩)]
    decide
  exact ⟨h, by rw [h]; decide, by decide⟩

/-- C6 (amended): both wait formulas are non-decreasing in the attempt
index, and a run of consecutive rate-limit signals produces exactly the
waits `wait429 0, wait429 1, …` — `export_scraper.py`'s waits are capped at
900s by `min`, while `ig_api_scraper.py`'s are uncapped in general and stay
at or below 900s only within its default `max_retries = 3` (the value every
call site uses); either retry loop sleeps at most `max_retries` times
before terminating. -/
theorem C6_backoff_amended (i j maxRetries : Nat) (resp : Nat → HttpResp)
    (hij : i ≤ j) :
    exportWait429 i ≤ exportWait429 j
    ∧ exportWaitErr i ≤ exportWaitErr j
    ∧ igWait429 i ≤ igWait429 j
    ∧ exportWait429 i ≤ 900
    ∧ exportWaitErr i ≤ 900
    ∧ (i < 3 → igWait429 i ≤ 900)
    ∧ (ExportScraper.api_get all429 maxRetries).2 = (List.range maxRetries).map exportWait429
    ∧ (IgApiScraper.api_get all429 maxRetries).2 = (List.range maxRetries).map igWait429
    ∧ (api_get_loop exportWait429 exportWaitErr resp maxRetries 0).2.length ≤ maxRetries
    ∧ (api_get_loop igWait429 igWaitErr resp maxRetries 0).2.length ≤ maxRetries := by
  have hpow : 2 ^ i ≤ 2 ^ j := Nat.pow_le_pow_right (by omega) hij
  refine ⟨?_, ?_, ?_, ?_, ?_, ?_, ?_, ?_, ?_, ?_⟩
  · exact min_le_min (Nat.mul_le_mul_left 60 hpow) (le_refl 900)
  · exact min_le_min (Nat.mul_le_mul_left 30 hpow) (le_refl 900)
  · exact Nat.mul_le_mul_left 60 hpow
  · exact min_le_right _ _
  · exact min_le_right _ _
  · intro hi
    interval_cases i <;> decide
  · unfold ExportScraper.api_get
    rw [api_get_loop_429 exportWait429 exportWaitErr all429 maxRetries 0 (fun k => ⟨[], rfl⟩)]
    rw [List.range_eq_range']
    simp
  · unfold IgApiScraper.api_get
    rw [api_get_loop_429 igWait429 igWaitErr all429 maxRetries 0 (fun k => ⟨[], rfl⟩)]
    rw [List.range_eq_range']
    simp
  · simpa using api_get_loop_len exportWait429 exportWaitErr resp maxRetries 0
  · simpa using api_get_loop_len igWait429 igWaitErr resp maxRetries 0

theorem C6_backoff_amended_witness :
    (1 : Nat) ≤ 6
    ∧ (exportWait429 1 ≤ exportWait429 6
      ∧ exportWaitErr 1 ≤ exportWaitErr 6
      ∧ igWait429 1 ≤ igWait429 6
      ∧ exportWait429 1 ≤ 900
      ∧ exportWaitErr 1 ≤ 900
      ∧ ((1 : Nat) < 3 → igWait429 1 ≤ 900)
      ∧ (ExportScraper.api_get all429 8).2 = (List.range 8).map exportWait429
      ∧ (IgApiScraper.api_get all429 8).2 = (List.range 8).map igWait429
      ∧ (api_get_loop exportWait429 exportWaitErr all429 8 0).2.length ≤ 8
      ∧ (api_get_loop igWait429 igWaitErr all429 8 0).2.length ≤ 8) :=
  ⟨by decide,
   C6_backoff_amended 1 6 8 all429 (by decide)⟩

/-- C7 counterexample: when every attempt is rate-limited, `api_get` does
not surface a fatal `RateLimitExhausted` error — the loop falls through and
`return {}` hands the caller an ordinary empty dict. -/
theorem C7_rate_limit_counterexample :
    (ExportScraper.api_get all429 8).1 = ApiOutcome.value []
    ∧ (ExportScraper.api_get all429 8).2 = [60, 120, 240, 480, 900, 900, 900, 900]
    ∧ (IgApiScraper.api_get all429 3).1 = ApiOutcome.value []
    ∧ ApiOutcome.value ([] : RawRecord) ≠ ApiOutcome.raised
    ∧ ApiOutcome.value ([] : RawRecord) ≠ ApiOutcome.authExit := by
  have h1 := api_get_loop_429 exportWait429 exportWaitErr all429 8 0 (fun k => ⟨[], rfl⟩)
  have h2 := api_get_loop_429 igWait429 igWaitErr all429 3 0 (fun k => ⟨[], rfl⟩)
  unfold ExportScraper.api_get IgApiScraper.api_get
  rw [h1, h2]
  refine ⟨rfl, by decide, rfl, by decide, by decide⟩

/-- C7 (amended): if every one of the configured retry attempts receives a
rate-limit signal, both `api_get` implementations return the empty dict
`{}` to the caller as an ordinary value (callers count it as a per-unit
miss and continue); no fatal error is raised.  Only the transient
network-error path re-raises, on the final attempt. -/
theorem C7_rate_limit_amended (maxRetries : Nat) (resp1 resp2 : Nat → HttpResp)
    (h1 : ∀ a, ∃ body, resp1 a = HttpResp.http 429 body)
    (h2 : ∀ a, resp2 a = HttpResp.netErr) (hm : 0 < maxRetries) :
    (ExportScraper.api_get resp1 maxRetries).1 = ApiOutcome.value []
    ∧ (IgApiScraper.api_get resp1 maxRetries).1 = ApiOutcome.value []
    ∧ (ExportScraper.api_get resp2 maxRetries).1 = ApiOutcome.raised
    ∧ (IgApiScraper.api_get resp2 maxRetries).1 = ApiOutcome.raised := by
  unfold ExportScraper.api_get IgApiScraper.api_get
  rw [api_get_loop_429 exportWait429 exportWaitErr resp1 maxRetries 0 h1]
  rw [api_get_loop_429 igWait429 igWaitErr resp1 maxRetries 0 h1]
  exact ⟨rfl, rfl,
    api_get_loop_netErr exportWait429 exportWaitErr resp2 maxRetries 0 h2 hm,
    api_get_loop_netErr igWait429 igWaitErr resp2 maxRetries 0 h2 hm⟩

theorem C7_rate_limit_amended_witness :
    (0 : Nat) < 3
    ∧ ((ExportScraper.api_get all429 3).1 = ApiOutcome.value []
      ∧ (IgApiScraper.api_get all429 3).1 = ApiOutcome.value []
      ∧ (ExportScraper.api_get (fun _ => HttpResp.netErr) 3).1 = ApiOutcome.raised
      ∧ (IgApiScraper.api_get (fun _ => HttpResp.netErr) 3).1 = ApiOutcome.raised) :=
  ⟨by decide,
   C7_rate_limit_amended 3 all429 (fun _ => HttpResp.netErr)
     (fun a => ⟨[], rfl⟩) (fun a => rfl) (by decide)⟩

/-- C8: an HTTP 401 on any attempt makes `api_get` exit the process
immediately and fatally, with no sleep and no further attempt, no matter
how many retries remain (both wait formulas, hence both implementations). -/
theorem C8_auth_fatal (w we : Nat → Nat) (resp : Nat → HttpResp)
    (maxRetries attempt : Nat) (body : RawRecord)
    (ha : attempt < maxRetries) (hr : resp attempt = HttpResp.http 401 body) :
    api_get_loop w we resp maxRetries attempt = (ApiOutcome.authExit, []) := by
  unfold api_get_loop
  rw [dif_pos ha, hr]
  dsimp only
  rw [if_neg (by decide : ¬(401 : Nat) = 429), if_pos rfl]

theorem C8_auth_fatal_witness :
    (0 : Nat) < 8
    ∧ api_get_loop exportWait429 exportWaitErr (fun _ => HttpResp.http 401 []) 8 0
        = (ApiOutcome.authExit, []) :=
  ⟨by decide,
   C8_auth_fatal exportWait429 exportWaitErr (fun _ => HttpResp.http 401 []) 8 0 []
     (by decide) rfl⟩

/-- C9: every entry returned by `parse_relationship_entries` carries a
non-empty handle, and its `follow_date` is the UTC `YYYY-MM-DD` string of
its timestamp when that timestamp is non-zero, and `""` otherwise.  When an
item's stripped `value` is empty, the handle is recovered as the last path
segment of an `instagram.com` href; an item yielding no handle by either
route is silently dropped. -/
theorem C9_parse_relationship_entries (d : RelData) (e : Entry) (sd : SLD)
    (he : e ∈ parse_relationship_entries d) :
    (e.handle ≠ ""
      ∧ e.follow_date = (if e.timestamp = 0 then "" else fmtUtcDate e.timestamp))
    ∧ (pyStrip sd.value = "" → strContains sd.href "instagram.com/" = true →
        hrefHandle sd.href ≠ "" →
        parseSLD sd = some { handle := hrefHandle sd.href
                             follow_date := if sd.timestamp = 0 then ""
                               else fmtUtcDate sd.timestamp
                             timestamp := sd.timestamp })
    ∧ (pyStrip sd.value = "" →
        (strContains sd.href "instagram.com/" = false ∨ hrefHandle sd.href = "") →
        parseSLD sd = none) := by
  refine ⟨?_, ?_, ?_⟩
  · obtain ⟨sd', hsd⟩ := mem_parse_entries d e he
    exact parseSLD_some sd' e hsd
  · intro hv hc hh
    unfold parseSLD
    rw [hv]
    simp only [if_pos rfl, hc, if_true]
    rw [if_neg hh]
  · intro hv hd
    unfold parseSLD
    rw [hv]
    simp only [if_pos rfl]
    rcases hd with hd | hd
    · rw [hd]
      simp
    · cases hc : strContains sd.href "instagram.com/" with
      | false => simp
      | true => simp [hd]

theorem C9_parse_relationship_entries_witness :
    ((Entry.handle ⟨"bob", "", 0⟩ ≠ ""
      ∧ Entry.follow_date ⟨"bob", "", 0⟩
          = (if Entry.timestamp ⟨"bob", "", 0⟩ = 0 then ""
             else fmtUtcDate (Entry.timestamp ⟨"bob", "", 0⟩)))
    ∧ (pyStrip (SLD.value ⟨"  ", "https://www.instagram.com/bob/", 0⟩) = "" →
        strContains (SLD.href ⟨"  ", "https://www.instagram.com/bob/", 0⟩)
          "instagram.com/" = true →
        hrefHandle (SLD.href ⟨"  ", "https://www.instagram.com/bob/", 0⟩) ≠ "" →
        parseSLD ⟨"  ", "https://www.instagram.com/bob/", 0⟩
          = some { handle := hrefHandle
                     (SLD.href ⟨"  ", "https://www.instagram.com/bob/", 0⟩)
                   follow_date := if SLD.timestamp
                       ⟨"  ", "https://www.instagram.com/bob/", 0⟩ = 0 then ""
                     else fmtUtcDate (SLD.timestamp
                       ⟨"  ", "https://www.instagram.com/bob/", 0⟩)
                   timestamp := SLD.timestamp
                     ⟨"  ", "https://www.instagram.com/bob/", 0⟩ })
    ∧ (pyStrip (SLD.value ⟨"  ", "https://www.instagram.com/bob/", 0⟩) = "" →
        (strContains (SLD.href ⟨"  ", "https://www.instagram.com/bob/", 0⟩)
            "instagram.com/" = false
          ∨ hrefHandle (SLD.href ⟨"  ", "https://www.instagram.com/bob/", 0⟩) = "") →
        parseSLD ⟨"  ", "https://www.instagram.com/bob/", 0⟩ = none)) :=
  C9_parse_relationship_entries
    (RelData.arr [⟨[⟨"  ", "https://www.instagram.com/bob/", 0⟩]⟩])
    ⟨"bob", "", 0⟩ ⟨"  ", "https://www.instagram.com/bob/", 0⟩ (by decide)

/-- C10: every write of the followers JSON file by
`scrape_followers.py` cmd_followers — the periodic checkpoint, the save in
the rate-limit handler, and the final save — persists
`sorted(collected)` for a `collected` built by set-insertion, so the
on-disk list is duplicate-free and lexicographically sorted at every
checkpoint, whatever order the followers arrived in. -/
theorem C10_sorted_dedup_checkpoints (file us : List String) :
    (savedFollowers file us).Nodup
    ∧ List.Sorted (fun a b : String => a ≤ b) (savedFollowers file us) := by
  constructor
  · unfold savedFollowers pySorted
    exact ((List.perm_insertionSort _ _).nodup_iff).mpr
      (foldl_addFollower_nodup us _
        (foldl_addFollower_nodup file [] List.nodup_nil))
  · unfold savedFollowers pySorted
    exact List.sorted_insertionSort _ _
